import Mathlib

/-!
Shallow embedding of the A2A task-protocol code of this repository:
the server (`src/utils/a2a_server.py`), the client (`src/utils/a2a_client.py`)
and the orchestrator (`src/agents/orchestrator.py`).

Python dicts keyed by strings are modelled as association lists; timestamps
(`datetime.utcnow().isoformat()`) are opaque strings supplied as parameters;
the network and the LLM calls are modelled as environment parameters giving
each call's outcome.  Handler invocation is modelled by the outcome the
handler produces (`Except String HandlerResult`: an exception message or a
returned value), since handlers are arbitrary registered callables.
-/

namespace A2A

/-- `TaskStatus` enum of `a2a_server.py` (lines 24-30). -/
inductive TaskStatus where
  | submitted
  | working
  | completed
  | failed
  | inputRequired
  | cancelled
deriving DecidableEq, Repr

/-- Terminal statuses: `COMPLETED`, `FAILED`, `CANCELLED`. -/
def TaskStatus.terminal : TaskStatus → Bool
  | .completed => true
  | .failed => true
  | .cancelled => true
  | _ => false

/-- Python values that flow through artifact contents: `None`, strings, dicts. -/
inductive PyVal where
  | vNone : PyVal
  | vStr : String → PyVal
  | vDict : List (String × PyVal) → PyVal

/-- `Artifact` dataclass (`a2a_server.py` lines 63-68). -/
structure Artifact where
  type : String
  content : PyVal
  metadata : List (String × PyVal) := []

/-- `TaskResponse` dataclass (`a2a_server.py` lines 71-79). -/
structure TaskResponse where
  task_id : String
  status : TaskStatus
  artifacts : List Artifact := []
  error : Option String := none
  created_at : String
  updated_at : String

/-- Association-list lookup, modelling `self.tasks[task_id]` / `in` tests. -/
def lookupTask : List (String × TaskResponse) → String → Option TaskResponse
  | [], _ => none
  | (k, v) :: rest, tid => if k = tid then some v else lookupTask rest tid

/-- Association-list insert-or-replace, modelling `self.tasks[task_id] = task`. -/
def updateTask : List (String × TaskResponse) → String → TaskResponse →
    List (String × TaskResponse)
  | [], tid, t => [(tid, t)]
  | (k, v) :: rest, tid, t =>
      if k = tid then (tid, t) :: rest else (k, v) :: updateTask rest tid t

/-- Server state: the declared skill ids (`self.skills`, consulted only for
membership), the skill ids with a registered handler (`self.handlers`,
consulted for membership; the handler body itself is an environment
parameter), and the task store (`self.tasks`). -/
structure ServerState where
  skills : List String
  handlers : List String
  tasks : List (String × TaskResponse)

/-- The possible shapes of a handler's return value, matched by the
normalization chain of `_execute_task` (lines 246-255): a list of artifacts,
a single `Artifact`, a `dict`, a `str`, or anything else (carried as its
`str(result)` rendering). -/
inductive HandlerResult where
  | list : List Artifact → HandlerResult
  | artifact : Artifact → HandlerResult
  | dict : List (String × PyVal) → HandlerResult
  | str : String → HandlerResult
  | other : String → HandlerResult

/-- Result-to-artifacts normalization of `_execute_task` (lines 245-255).
The `isinstance` chain tests `list` first, then `Artifact`, `dict`, `str`,
with a final fallback wrapping `str(result)` as a json artifact. -/
def normalizeResult : HandlerResult → List Artifact
  | .list as => as
  | .artifact a => [a]
  | .dict d => [{ type := "json", content := PyVal.vDict d }]
  | .str s => [{ type := "text", content := PyVal.vStr s }]
  | .other s => [{ type := "json", content := PyVal.vStr s }]

/-- The fresh task built by `create_task` / `create_task_sync`
(lines 163-166 / 210-213): status `SUBMITTED`, empty artifacts, no error,
both timestamps set at creation. -/
def newTask (tid tNow : String) : TaskResponse :=
  { task_id := tid, status := .submitted, created_at := tNow, updated_at := tNow }

/-- `POST /tasks` submission validation and task creation (`create_task`,
lines 153-178).  If the skill id is not declared, an HTTP 400 is raised
before any mutation (the `Available: [...]` suffix of the message, listing
the declared ids, is elided).  Otherwise the fresh task is stored and
returned; the background execution itself is a separate step
(`executeTask`).  The returned pair is (task store after the call, HTTP
outcome). -/
def createTask (st : ServerState) (sid tid tNow : String) :
    ServerState × Except String TaskResponse :=
  if sid ∈ st.skills then
    let task := newTask tid tNow
    ({ st with tasks := updateTask st.tasks tid task }, .ok task)
  else
    (st, .error ("Unknown skill: " ++ sid))

/-- `POST /tasks/\x7btask_id\x7d/cancel` (`cancel_task`, lines 187-198):
404 when the id is unknown; sets `CANCELLED` and refreshes `updated_at`
only when the current status is `SUBMITTED` or `WORKING`; in every other
status the record is returned unchanged. -/
def cancelTask (st : ServerState) (tid tNow : String) :
    ServerState × Except String TaskResponse :=
  match lookupTask st.tasks tid with
  | none => (st, .error "Task not found")
  | some task =>
    if task.status = .submitted ∨ task.status = .working then
      let task := { task with status := .cancelled, updated_at := tNow }
      ({ st with tasks := updateTask st.tasks tid task }, .ok task)
    else
      (st, .ok task)

/-- First phase of `_execute_task` (lines 234-236), up to the `await` of the
handler: the task is looked up (a missing id would be a `KeyError`, hence
`Option`) and moved to `WORKING` with a fresh `updated_at`. -/
def execStart (st : ServerState) (tid tWork : String) : Option ServerState :=
  (lookupTask st.tasks tid).map fun task =>
    let task2 : TaskResponse := { task with status := .working, updated_at := tWork }
    { st with tasks := updateTask st.tasks tid task2 }

/-- The task-record transformation performed by the remainder of
`_execute_task` (lines 238-264): inside `try`, a missing handler raises
`ValueError` which the `except` turns into `FAILED`; a handler exception
likewise becomes `FAILED` with `str(e)` as the error; a returned value is
normalized into the artifact list and the status becomes `COMPLETED`.
In every path `updated_at` is refreshed at the end (line 264). -/
def finishTask (handlers : List String) (sid : String)
    (behavior : Except String HandlerResult) (tDone : String)
    (task : TaskResponse) : TaskResponse :=
  let task :=
    if sid ∈ handlers then
      match behavior with
      | .ok r => { task with artifacts := normalizeResult r, status := .completed }
      | .error msg => { task with status := .failed, error := some msg }
    else
      { task with status := .failed,
                  error := some ("No handler registered for skill: " ++ sid) }
  { task with updated_at := tDone }

/-- Second phase of `_execute_task`: the fields written after the handler
returns are written to the task's current record in the store (the Python
code mutates the shared `TaskResponse` object in place, so a status set by
an interleaved cancel is overwritten here). -/
def execFinish (st : ServerState) (tid sid : String)
    (behavior : Except String HandlerResult) (tDone : String) :
    Option ServerState :=
  (lookupTask st.tasks tid).map fun task =>
    let task2 := finishTask st.handlers sid behavior tDone task
    { st with tasks := updateTask st.tasks tid task2 }

/-- `_execute_task` run without interleaving: start phase then finish
phase. -/
def executeTask (st : ServerState) (tid sid : String)
    (behavior : Except String HandlerResult) (tWork tDone : String) :
    Option ServerState :=
  (execStart st tid tWork).bind fun st1 => execFinish st1 tid sid behavior tDone

/-- `POST /tasks/sync` (`create_task_sync`, lines 200-224): same skill
validation (message without the `Available` suffix), then the task is
created, `_execute_task` is awaited inline, and the task's final record is
returned.  The `KeyError` branch is unreachable: the task was just
inserted. -/
def createTaskSync (st : ServerState) (sid tid : String)
    (behavior : Except String HandlerResult) (t0 tWork tDone : String) :
    ServerState × Except String TaskResponse :=
  if sid ∈ st.skills then
    let task := newTask tid t0
    let st1 := { st with tasks := updateTask st.tasks tid task }
    match executeTask st1 tid sid behavior tWork tDone with
    | some st2 =>
      match lookupTask st2.tasks tid with
      | some final => (st2, .ok final)
      | none => (st2, .error "KeyError")
    | none => (st1, .error "KeyError")
  else
    (st, .error ("Unknown skill: " ++ sid))

/-- The record-level effect of one `_execute_task` run on the task it
operates on: the start phase's `WORKING` write followed by the finish
phase. -/
def runTask (handlers : List String) (sid : String)
    (behavior : Except String HandlerResult) (tWork tDone : String)
    (task : TaskResponse) : TaskResponse :=
  finishTask handlers sid behavior tDone
    ({ task with status := .working, updated_at := tWork })

theorem lookupTask_updateTask_self (l : List (String × TaskResponse))
    (tid : String) (t : TaskResponse) :
    lookupTask (updateTask l tid t) tid = some t := by
  induction l with
  | nil => simp [updateTask, lookupTask]
  | cons hd tl ih =>
    obtain ⟨k, v⟩ := hd
    by_cases h : k = tid
    · simp [updateTask, lookupTask, h]
    · simp [updateTask, lookupTask, h, ih]

theorem lookupTask_updateTask_other (l : List (String × TaskResponse))
    (tid tid2 : String) (t : TaskResponse) (h : tid2 ≠ tid) :
    lookupTask (updateTask l tid t) tid2 = lookupTask l tid2 := by
  have h2 : tid ≠ tid2 := fun hh => h hh.symm
  induction l with
  | nil => simp [updateTask, lookupTask, h2]
  | cons hd tl ih =>
    obtain ⟨k, v⟩ := hd
    by_cases hk : k = tid
    · simp [updateTask, lookupTask, hk, h2]
    · simp [updateTask, lookupTask, hk, ih]

theorem updateTask_updateTask_self (l : List (String × TaskResponse))
    (tid : String) (t1 t2 : TaskResponse) :
    updateTask (updateTask l tid t1) tid t2 = updateTask l tid t2 := by
  induction l with
  | nil => simp [updateTask]
  | cons hd tl ih =>
    obtain ⟨k, v⟩ := hd
    by_cases h : k = tid
    · simp [updateTask, h]
    · simp [updateTask, h, ih]

theorem executeTask_found (st : ServerState) (tid sid tWork tDone : String)
    (task : TaskResponse) (behavior : Except String HandlerResult)
    (hlook : lookupTask st.tasks tid = some task) :
    executeTask st tid sid behavior tWork tDone
      = some ({ st with tasks := updateTask st.tasks tid (runTask st.handlers sid behavior tWork tDone task) }) := by
  simp [executeTask, execStart, hlook, execFinish, lookupTask_updateTask_self,
    runTask, updateTask_updateTask_self]

/-!
Client model (`src/utils/a2a_client.py`).  The client consumes JSON dicts
from the wire, so its view of a task record is independent of the server's
dataclass: `status` / `artifacts` / `error` are read with `dict.get`, whose
default fires only when the key is absent (a present `None` is returned as
is), hence the `Option (Option _)` field for `error`.
-/

/-- One artifact dict as seen by the client; `get("content", \x7b\x7d)` is
modelled by `content.getD (PyVal.vDict [])`. -/
structure ClientArtifact where
  content : Option PyVal := none

/-- A task-record dict as decoded by the client. -/
structure ClientTask where
  task_id : String := ""
  status : Option String := none
  artifacts : List ClientArtifact := []
  errorField : Option (Option String) := none

/-- The terminal-status test of the poll loop (`a2a_client.py` line 178):
`status in ["completed", "failed", "cancelled"]`. -/
def isTerminalStatus (s : String) : Bool :=
  s = "completed" || s = "failed" || s = "cancelled"

/-- Outcome of one `GET /tasks/\x7btask_id\x7d` poll attempt: the request
raised an exception, or returned a decoded record. -/
inductive PollAttempt where
  | err : PollAttempt
  | resp : ClientTask → PollAttempt

/-- Whether a poll attempt outcome makes the loop return: a successful
response whose `status` value is a terminal status string. -/
def attemptTerminal : PollAttempt → Bool
  | .err => false
  | .resp r =>
    match r.status with
    | some s => isTerminalStatus s
    | none => false

/-- The timeout raised when the attempt budget is exhausted
(`a2a_client.py` line 187). -/
def pollTimeoutMsg (tid : String) : String :=
  "Task " ++ tid ++ " did not complete in time"

/-- The `for _ in range(max_poll_attempts)` loop of `_poll_task`
(lines 171-187), with `fuel` remaining attempts and `i` the index of the
next attempt in the environment `env`: an exception during an attempt is
caught, logged and the loop continues; a response with a terminal status is
returned; any other response (non-terminal or missing `status`) continues;
an exhausted budget raises `TimeoutError`. -/
def pollLoop (env : Nat → PollAttempt) (tid : String) :
    Nat → Nat → Except String ClientTask
  | 0, _ => .error (pollTimeoutMsg tid)
  | fuel + 1, i =>
    match env i with
    | .err => pollLoop env tid fuel (i + 1)
    | .resp r =>
      match r.status with
      | some s =>
        if isTerminalStatus s then .ok r else pollLoop env tid fuel (i + 1)
      | none => pollLoop env tid fuel (i + 1)

/-- `_poll_task` (`a2a_client.py` lines 163-187): runs the bounded loop from
attempt 0 with the configured `max_poll_attempts` budget. -/
def pollTask (env : Nat → PollAttempt) (maxAttempts : Nat) (tid : String) :
    Except String ClientTask :=
  pollLoop env tid maxAttempts 0

/-- Environment for one attempt of the retried `send_task` body with
`wait_for_completion=False`: the outcome of the `POST /tasks` submission,
and the outcomes of the poll requests made by the `_poll_task` call that
follows it. -/
structure AttemptEnv where
  submit : Except String ClientTask
  pollEnv : Nat → PollAttempt

/-- One invocation of the body of `send_task` (lines 102-161) with
`wait_for_completion=False`: the task is POSTed; on success `_poll_task` is
called on the returned `task_id` — inside the same `try`, so a
`TimeoutError` from the poll loop is re-raised by the `except` clause and
escapes the body invocation. -/
def sendTaskAttempt (maxPoll : Nat) (a : AttemptEnv) : Except String ClientTask :=
  match a.submit with
  | .error e => .error e
  | .ok d => pollTask a.pollEnv maxPoll d.task_id

/-- The tenacity `@retry(stop=stop_after_attempt(3), ...)` wrapper: the body
is invoked up to `rem` more times starting at attempt index `i`; a raised
exception triggers a re-invocation, and exhausting the attempts raises
`RetryError`.  Returns (number of body invocations performed, outcome). -/
def retryRun (body : Nat → Except String ClientTask) :
    Nat → Nat → Nat × Except String ClientTask
  | i, 0 => (i, .error "RetryError")
  | i, rem + 1 =>
    match body i with
    | .ok v => (i + 1, .ok v)
    | .error _ => retryRun body (i + 1) rem

/-- `send_task` with `wait_for_completion=False` as exposed to callers: the
retry decorator around the whole body, three attempts.  The first component
counts how many times the body ran, i.e. how many times the task submission
POST was sent. -/
def sendTaskNoWait (env : Nat → AttemptEnv) (maxPoll : Nat) :
    Nat × Except String ClientTask :=
  retryRun (fun i => sendTaskAttempt maxPoll (env i)) 0 3

/-!
Orchestrator model (`src/agents/orchestrator.py`).  The DSPy plan and
synthesis calls are LLM calls; their outcomes (the parsed required-skills
list, whether synthesis raises) are environment parameters.  The A2A call
outcomes of `_call_agent` are likewise parameters (`Except String
ClientTask`: an exception from `send_task`, or the decoded record).
-/

/-- `result.get("error", "Unknown error")` (line 219): the default fires
only when the key is absent; a present `None` is passed through. -/
def getErrorField (r : ClientTask) : Option String :=
  match r.errorField with
  | none => some "Unknown error"
  | some v => v

/-- What a `_call_agent` invocation produces for its caller. -/
inductive CallReturn where
  | ok : PyVal → CallReturn
  | err : Option String → CallReturn
  | raised : String → CallReturn

/-- `_call_agent` (`orchestrator.py` lines 194-223): an unregistered agent
name raises `ValueError` before the `try` block, so that exception
propagates to the caller; inside the `try`, an exception from `send_task` is
caught and returned as an error dict; a `completed` record with a non-empty
artifact list returns the first artifact's content (defaulting to `\x7b\x7d`
when the key is absent); every other record — non-completed status, or
completed with zero artifacts — falls through to the error dict built from
the record's error value. -/
def callAgent (agents : List String) (name : String)
    (outcome : Except String ClientTask) : CallReturn :=
  if name ∈ agents then
    match outcome with
    | .error e => .err (some e)
    | .ok r =>
      if r.status = some "completed" then
        match r.artifacts with
        | a :: _ => .ok (a.content.getD (PyVal.vDict []))
        | [] => .err (getErrorField r)
      else
        .err (getErrorField r)
  else
    .raised ("Unknown agent: " ++ name)

/-- The observable outcome of one `_handle_answer_question` run: the step
names appended to `results["steps"]`, the keys added to
`results["agent_results"]` with the value `_call_agent` produced, whether
the synthesis fields (`answer`, `recommendations`, `confidence`) were set,
and the run-level `results["error"]` set by the outer `except`. -/
structure RunResults where
  steps : List String
  agentResults : List (String × CallReturn)
  answerSet : Bool
  runError : Option String

/-- `_handle_answer_question` (`orchestrator.py` lines 225-314) after a
successful planning call: each of the two agent steps runs only under its
guard `skill in required_skills and agent_name in self.agents` (lines 265,
278) — when the guard fails the step is skipped with no trace; `_call_agent`
cannot raise under the guard, so the only exception reaching the outer
`except` after planning is one from the synthesis call, which records
`results["error"]` and returns the partial results without the synthesis
fields. -/
def handleAnswerQuestion (agents : List String) (requiredSkills : List String)
    (discoveryOutcome sqlOutcome : Except String ClientTask)
    (synthesisRaises : Option String) : RunResults :=
  let discPart : List String × List (String × CallReturn) :=
    if "discover-tables" ∈ requiredSkills ∧ "data_discovery" ∈ agents then
      (["data_discovery"],
       [("data_discovery", callAgent agents "data_discovery" discoveryOutcome)])
    else ([], [])
  let sqlPart : List String × List (String × CallReturn) :=
    if "text-to-sql" ∈ requiredSkills ∧ "sql_generation" ∈ agents then
      (["sql_generation"],
       [("sql_generation", callAgent agents "sql_generation" sqlOutcome)])
    else ([], [])
  let steps := "planning" :: (discPart.1 ++ sqlPart.1)
  let res := discPart.2 ++ sqlPart.2
  match synthesisRaises with
  | some e =>
    { steps := steps, agentResults := res, answerSet := false, runError := some e }
  | none =>
    { steps := steps, agentResults := res, answerSet := true, runError := none }

/-!  Theorems about the embedded operations.  -/

/-- C2: a submission — async (`POST /tasks`) or sync (`POST /tasks/sync`) —
whose skill id is not among the declared skills reports an invalid-request
error and leaves the task store unchanged: no `Task` record is created. -/
theorem unknown_skill_rejected (st : ServerState) (sid tid tNow : String)
    (behavior : Except String HandlerResult) (tWork tDone : String)
    (h : sid ∉ st.skills) :
    createTask st sid tid tNow = (st, .error ("Unknown skill: " ++ sid))
    ∧ createTaskSync st sid tid behavior tNow tWork tDone
        = (st, .error ("Unknown skill: " ++ sid)) := by
  constructor
  · simp [createTask, h]
  · simp [createTaskSync, h]

theorem unknown_skill_rejected_witness :
    createTask ⟨["discover-tables"], [], []⟩ "zzz" "t1" "T0"
      = (⟨["discover-tables"], [], []⟩, .error ("Unknown skill: " ++ "zzz")) :=
  (unknown_skill_rejected ⟨["discover-tables"], [], []⟩ "zzz" "t1" "T0"
    (.ok (.str "x")) "T1" "T2" (by decide)).1

/-- C4: when the handler raises, the execution engine marks the task
`FAILED` with the exception's message as the error string, leaves the
artifacts as they were, and returns normally — the exception is never
propagated to the engine's caller (the model's engine has no failure
channel other than the `KeyError` of a missing task id, excluded by the
hypothesis). -/
theorem handler_exception_becomes_failed (st : ServerState)
    (tid sid msg tWork tDone : String) (task : TaskResponse)
    (hlook : lookupTask st.tasks tid = some task)
    (hh : sid ∈ st.handlers) :
    ∃ st2, executeTask st tid sid (.error msg) tWork tDone = some st2
      ∧ ∃ t2, lookupTask st2.tasks tid = some t2
        ∧ t2.status = .failed ∧ t2.error = some msg
        ∧ t2.artifacts = task.artifacts := by
  refine ⟨_, executeTask_found st tid sid tWork tDone task _ hlook, ?_⟩
  refine ⟨runTask st.handlers sid (.error msg) tWork tDone task,
    lookupTask_updateTask_self _ _ _, ?_⟩
  simp [runTask, finishTask, hh]

theorem handler_exception_becomes_failed_witness :
    ∃ st2, executeTask ⟨["s"], ["s"], [("t", newTask "t" "T0")]⟩ "t" "s"
        (.error "boom") "T1" "T2" = some st2
      ∧ ∃ t2, lookupTask st2.tasks "t" = some t2
        ∧ t2.status = .failed ∧ t2.error = some "boom"
        ∧ t2.artifacts = (newTask "t" "T0").artifacts :=
  handler_exception_becomes_failed ⟨["s"], ["s"], [("t", newTask "t" "T0")]⟩
    "t" "s" "boom" "T1" "T2" (newTask "t" "T0") rfl (by decide)

/-- C8: cancelling a task whose status is terminal (`COMPLETED`, `FAILED`
or `CANCELLED`) is a no-op: the store is unchanged and the call returns the
existing record with every field — status, artifacts, error, created_at,
updated_at — exactly as stored. -/
theorem cancel_terminal_noop (st : ServerState) (tid tNow : String)
    (task : TaskResponse) (hlook : lookupTask st.tasks tid = some task)
    (hterm : task.status.terminal = true) :
    cancelTask st tid tNow = (st, .ok task) := by
  have h1 : ¬ (task.status = .submitted ∨ task.status = .working) := by
    intro hc
    cases hc <;> simp_all [TaskStatus.terminal]
  simp [cancelTask, hlook, h1]

/-- A concrete completed record used by witnesses. -/
def doneTask : TaskResponse :=
  { task_id := "t", status := .completed,
    artifacts := [{ type := "text", content := .vStr "done" }],
    created_at := "T0", updated_at := "T1" }

theorem cancel_terminal_noop_witness :
    cancelTask ⟨["s"], ["s"], [("t", doneTask)]⟩ "t" "T2"
      = (⟨["s"], ["s"], [("t", doneTask)]⟩, .ok doneTask) :=
  cancel_terminal_noop _ "t" "T2" _ rfl rfl

/-- C9: the execution engine normalizes every handler return shape into a
uniform artifact list on the task record: a single `Artifact` becomes a
one-element list, a list is stored as is, a `dict` is wrapped as one
json-typed artifact carrying the dict, a `str` as one text-typed artifact
carrying the string (anything else as one json artifact carrying
`str(result)`), and after a successful execution the completed task's
artifact list is exactly that normalization. -/
theorem handler_result_normalized (st : ServerState)
    (tid sid tWork tDone : String) (task : TaskResponse) (r : HandlerResult)
    (hlook : lookupTask st.tasks tid = some task)
    (hh : sid ∈ st.handlers) :
    (∀ a, normalizeResult (.artifact a) = [a])
    ∧ (∀ as, normalizeResult (.list as) = as)
    ∧ (∀ d, normalizeResult (.dict d)
        = [{ type := "json", content := PyVal.vDict d }])
    ∧ (∀ s, normalizeResult (.str s)
        = [{ type := "text", content := PyVal.vStr s }])
    ∧ ∃ st2, executeTask st tid sid (.ok r) tWork tDone = some st2
        ∧ ∃ t2, lookupTask st2.tasks tid = some t2
          ∧ t2.status = .completed ∧ t2.artifacts = normalizeResult r := by
  refine ⟨fun a => rfl, fun as => rfl, fun d => rfl, fun s => rfl, ?_⟩
  refine ⟨_, executeTask_found st tid sid tWork tDone task _ hlook, ?_⟩
  refine ⟨runTask st.handlers sid (.ok r) tWork tDone task,
    lookupTask_updateTask_self _ _ _, ?_⟩
  simp [runTask, finishTask, hh]

theorem handler_result_normalized_witness :
    ∃ st2, executeTask ⟨["s"], ["s"], [("t", newTask "t" "T0")]⟩ "t" "s"
        (.ok (.str "hello")) "T1" "T2" = some st2
      ∧ ∃ t2, lookupTask st2.tasks "t" = some t2
        ∧ t2.status = .completed
        ∧ t2.artifacts = normalizeResult (.str "hello") :=
  (handler_result_normalized ⟨["s"], ["s"], [("t", newTask "t" "T0")]⟩
    "t" "s" "T1" "T2" (newTask "t" "T0") (.str "hello") rfl (by decide)).2.2.2.2

theorem pollLoop_timeout (env : Nat → PollAttempt) (tid : String) :
    ∀ fuel i, (∀ k, k < fuel → attemptTerminal (env (i + k)) = false) →
      pollLoop env tid fuel i = .error (pollTimeoutMsg tid) := by
  intro fuel
  induction fuel with
  | zero => intro i _; rfl
  | succ f ih =>
    intro i h
    have h0 : attemptTerminal (env i) = false := by
      have := h 0 (Nat.succ_pos f)
      simpa using this
    have hrest : ∀ k, k < f → attemptTerminal (env (i + 1 + k)) = false := by
      intro k hk
      have := h (k + 1) (by omega)
      have harith : i + (k + 1) = i + 1 + k := by omega
      rwa [harith] at this
    cases henv : env i with
    | err => simpa [pollLoop, henv] using ih (i + 1) hrest
    | resp r =>
      cases hs : r.status with
      | none => simpa [pollLoop, henv, hs] using ih (i + 1) hrest
      | some s =>
        have hterm : isTerminalStatus s = false := by
          have := h0
          rw [henv] at this
          simpa [attemptTerminal, hs] using this
        simpa [pollLoop, henv, hs, hterm] using ih (i + 1) hrest

theorem pollLoop_first_terminal (env : Nat → PollAttempt) (tid : String) :
    ∀ fuel i j r, j < fuel →
      (∀ k, k < j → attemptTerminal (env (i + k)) = false) →
      env (i + j) = .resp r → attemptTerminal (.resp r) = true →
      pollLoop env tid fuel i = .ok r := by
  intro fuel
  induction fuel with
  | zero => intro i j r hj; omega
  | succ f ih =>
    intro i j r hj hbefore henv hterm
    cases j with
    | zero =>
      rw [Nat.add_zero] at henv
      obtain ⟨s, hs, hst⟩ : ∃ s, r.status = some s ∧ isTerminalStatus s = true := by
        cases hsv : r.status with
        | none => simp [attemptTerminal, hsv] at hterm
        | some s => exact ⟨s, rfl, by simpa [attemptTerminal, hsv] using hterm⟩
      simp [pollLoop, henv, hs, hst]
    | succ j =>
      have h0 : attemptTerminal (env i) = false := by
        have := hbefore 0 (Nat.succ_pos j)
        simpa using this
      have hrest : ∀ k, k < j → attemptTerminal (env (i + 1 + k)) = false := by
        intro k hk
        have := hbefore (k + 1) (by omega)
        have harith : i + (k + 1) = i + 1 + k := by omega
        rwa [harith] at this
      have henv2 : env (i + 1 + j) = .resp r := by
        have harith : i + (j + 1) = i + 1 + j := by omega
        rwa [harith] at henv
      have tail := ih (i + 1) j r (by omega) hrest henv2 hterm
      cases he : env i with
      | err => simpa [pollLoop, he] using tail
      | resp r0 =>
        cases hs : r0.status with
        | none => simpa [pollLoop, he, hs] using tail
        | some s =>
          have hf : isTerminalStatus s = false := by
            have := h0
            rw [he] at this
            simpa [attemptTerminal, hs] using this
          simpa [pollLoop, he, hs, hf] using tail

/-- C7: the client poll loop performs at most `n = max_poll_attempts`
attempts: if none of the first `n` attempt outcomes is a response with a
terminal status (`completed`, `failed`, `cancelled`), the loop raises the
client-side `TimeoutError` — an exception, structurally distinct from any
`.ok` record, in particular from a server-reported `FAILED` record; and the
loop returns the record of the first terminal response as soon as one
occurs within the budget, tolerating earlier attempts that raised or
returned non-terminal records. -/
theorem poll_loop_bounded_terminal (env : Nat → PollAttempt) (n : Nat)
    (tid : String) :
    ((∀ i, i < n → attemptTerminal (env i) = false) →
        pollTask env n tid = .error (pollTimeoutMsg tid))
    ∧ (∀ j r, j < n → (∀ i, i < j → attemptTerminal (env i) = false) →
        env j = .resp r → attemptTerminal (.resp r) = true →
        pollTask env n tid = .ok r) := by
  constructor
  · intro h
    exact pollLoop_timeout env tid n 0 (by simpa using h)
  · intro j r hj hbefore henv hterm
    exact pollLoop_first_terminal env tid n 0 j r hj (by simpa using hbefore)
      (by simpa using henv) hterm

/-- A concrete poll environment: one transient failure, one non-terminal
response, then a failed record. -/
def pollEnvW : Nat → PollAttempt := fun i =>
  if i = 0 then .err
  else if i = 1 then .resp ({ task_id := "t", status := some "working" })
  else .resp ({ task_id := "t", status := some "failed",
                errorField := some (some "boom") })

theorem poll_loop_bounded_terminal_witness :
    pollTask pollEnvW 5 "t"
      = .ok ({ task_id := "t", status := some "failed",
               errorField := some (some "boom") }) :=
  (poll_loop_bounded_terminal pollEnvW 5 "t").2 2
    ({ task_id := "t", status := some "failed", errorField := some (some "boom") })
    (by omega) (by decide) rfl (by decide)

/-- C10: when `_call_agent` receives a `completed` record, a completed
record with an empty artifact list yields the error dict (keyed `error`)
built from the record's error value rather than an empty success value; a
content value is returned only when at least one artifact is present, and
then only the first artifact's content is used (the default `\x7b\x7d`
standing in when its `content` key is absent), independently of the
remaining artifacts. -/
theorem call_agent_empty_artifacts (agents : List String) (name : String)
    (r : ClientTask) (hreg : name ∈ agents)
    (hstat : r.status = some "completed") :
    (r.artifacts = [] → callAgent agents name (.ok r) = .err (getErrorField r))
    ∧ (∀ a rest, r.artifacts = a :: rest →
        callAgent agents name (.ok r) = .ok (a.content.getD (PyVal.vDict []))) := by
  constructor
  · intro hempty
    simp [callAgent, hreg, hstat, hempty]
  · intro a rest hcons
    simp [callAgent, hreg, hstat, hcons]

theorem call_agent_empty_artifacts_witness :
    callAgent ["data_discovery"] "data_discovery"
        (.ok ({ task_id := "t", status := some "completed",
                artifacts := [], errorField := some none }))
      = .err none :=
  (call_agent_empty_artifacts ["data_discovery"] "data_discovery"
    ({ task_id := "t", status := some "completed", artifacts := [],
       errorField := some none }) (by decide) rfl).1 rfl

/-!
The cancel/finish interleaving.  `_execute_task` awaits the handler between
its `WORKING` write and its final status write; `cancel_task` can run at
that await point and set `CANCELLED` (a terminal status) on the shared
record, after which the finish phase unconditionally overwrites the status
with `COMPLETED` or `FAILED`.  The states below walk one task through that
interleaving: skill `"s"` declared and handled, task `"t"` submitted at
`"T0"`, execution started at `"T1"`, cancelled at `"T2"`, handler returned
the string `"hi"` and the finish phase ran at `"T3"`. -/

def raceState0 : ServerState := ⟨["s"], ["s"], [("t", newTask "t" "T0")]⟩

def raceState1 : ServerState := (execStart raceState0 "t" "T1").getD raceState0

def raceState2 : ServerState := (cancelTask raceState1 "t" "T2").1

def raceState3 : ServerState :=
  (execFinish raceState2 "t" "s" (.ok (.str "hi")) "T3").getD raceState2

/-- C1 counterexample: after the cancel the task's status is `CANCELLED`, a
terminal state; the execution engine's finish phase for the very same task
then changes it to `COMPLETED`, a different terminal state — so the task is
observed in two different terminal states, refuting the claim that no
operation ever changes a terminal status. -/
theorem cancelled_then_completed_ce :
    (lookupTask raceState2.tasks "t").map TaskResponse.status
        = some TaskStatus.cancelled
    ∧ (lookupTask raceState3.tasks "t").map TaskResponse.status
        = some TaskStatus.completed
    ∧ TaskStatus.cancelled.terminal = true
    ∧ TaskStatus.completed.terminal = true
    ∧ TaskStatus.cancelled ≠ TaskStatus.completed :=
  ⟨rfl, rfl, rfl, rfl, by decide⟩

/-- C1 amended: a task's status follows `SUBMITTED → WORKING →
\x7bCOMPLETED|FAILED\x7d` through the engine, and `cancel_task` moves only a
`SUBMITTED` or `WORKING` task to `CANCELLED`, never changing a task already
in a terminal state; however the engine's finish phase overwrites whatever
status the record then carries — including a `CANCELLED` set while the
handler was in flight — with `COMPLETED` (or `FAILED`), so a task cancelled
during execution is observed in two different terminal states.  The four
conjuncts: (1) cancel is a no-op on a terminal task; (2) cancel moves a
submitted or working task to `CANCELLED`; (3) the start phase moves the
task to `WORKING` and the full engine run then yields `COMPLETED` for a
returning handler and `FAILED` for a raising one; (4) the finish phase
moves even a `CANCELLED` task to `COMPLETED` when the handler returned. -/
theorem status_lifecycle_amended (st : ServerState)
    (tid sid tNow tWork tDone : String) (task : TaskResponse)
    (hlook : lookupTask st.tasks tid = some task)
    (hh : sid ∈ st.handlers) :
    (task.status.terminal = true → cancelTask st tid tNow = (st, .ok task))
    ∧ (task.status = .submitted ∨ task.status = .working →
        ∃ st2, cancelTask st tid tNow
            = (st2, .ok ({ task with status := .cancelled, updated_at := tNow }))
          ∧ (lookupTask st2.tasks tid).map TaskResponse.status
              = some TaskStatus.cancelled)
    ∧ (∀ r : HandlerResult,
        (∃ st1, execStart st tid tWork = some st1
          ∧ (lookupTask st1.tasks tid).map TaskResponse.status
              = some TaskStatus.working)
        ∧ (∃ st2, executeTask st tid sid (.ok r) tWork tDone = some st2
            ∧ (lookupTask st2.tasks tid).map TaskResponse.status
                = some TaskStatus.completed)
        ∧ ∀ msg, ∃ st2, executeTask st tid sid (.error msg) tWork tDone = some st2
            ∧ (lookupTask st2.tasks tid).map TaskResponse.status
                = some TaskStatus.failed)
    ∧ (task.status = .cancelled → ∀ r : HandlerResult,
        ∃ st2, execFinish st tid sid (.ok r) tDone = some st2
          ∧ (lookupTask st2.tasks tid).map TaskResponse.status
              = some TaskStatus.completed) := by
  refine ⟨?_, ?_, ?_, ?_⟩
  · intro hterm
    have h1 : ¬ (task.status = .submitted ∨ task.status = .working) := by
      intro hc
      cases hc <;> simp_all [TaskStatus.terminal]
    simp [cancelTask, hlook, h1]
  · intro hact
    refine ⟨{ st with tasks := updateTask st.tasks tid ({ task with status := .cancelled, updated_at := tNow }) }, ?_, ?_⟩
    · simp [cancelTask, hlook, hact]
    · simp [lookupTask_updateTask_self]
  · intro r
    refine ⟨⟨{ st with tasks := updateTask st.tasks tid ({ task with status := .working, updated_at := tWork }) }, ?_, ?_⟩, ?_, ?_⟩
    · simp [execStart, hlook]
    · simp [lookupTask_updateTask_self]
    · refine ⟨_, executeTask_found st tid sid tWork tDone task _ hlook, ?_⟩
      simp [lookupTask_updateTask_self, runTask, finishTask, hh]
    · intro msg
      refine ⟨_, executeTask_found st tid sid tWork tDone task _ hlook, ?_⟩
      simp [lookupTask_updateTask_self, runTask, finishTask, hh]
  · intro _ r
    refine ⟨{ st with tasks := updateTask st.tasks tid (finishTask st.handlers sid (.ok r) tDone task) }, ?_, ?_⟩
    · simp [execFinish, hlook]
    · simp [lookupTask_updateTask_self, finishTask, hh]

theorem status_lifecycle_amended_witness :
    ∃ st2, execFinish raceState2 "t" "s" (.ok (.str "hi")) "T3" = some st2
      ∧ (lookupTask st2.tasks "t").map TaskResponse.status
          = some TaskStatus.completed :=
  (status_lifecycle_amended raceState2 "t" "s" "T2b" "T1b" "T3"
      ({ task_id := "t", status := .cancelled, created_at := "T0",
         updated_at := "T2" }) rfl (by decide)).2.2.2 rfl (.str "hi")

/-- A server whose skill `"s"` is declared but has no registered handler
(`register_handler` was never called for it), before any submission. -/
def nohandlerState0 : ServerState := ⟨["s"], [], []⟩

/-- `nohandlerState0` after submitting skill `"s"` as task `"t"`. -/
def nohandlerState1 : ServerState := (createTask nohandlerState0 "s" "t" "T0").1

/-- C3 counterexample: skill `"s"` has no resolvable handler, yet
submission succeeds and creates a task (status `SUBMITTED`), the engine
then moves it to `WORKING`, and only afterwards does the missing-handler
configuration error surface, as a `FAILED` status with the no-handler
message — refuting the claim that the error is surfaced before any state
transition and that no task is ever created for such a skill. -/
theorem unresolved_handler_creates_task_ce :
    (createTask nohandlerState0 "s" "t" "T0").2 = .ok (newTask "t" "T0")
    ∧ ((execStart nohandlerState1 "t" "T1").map
        (fun s1 => (lookupTask s1.tasks "t").map TaskResponse.status))
        = some (some TaskStatus.working)
    ∧ ((executeTask nohandlerState1 "t" "s" (.ok (.str "hi")) "T1" "T2").map
        (fun s2 => (lookupTask s2.tasks "t").map
          (fun t2 => (t2.status, t2.error))))
        = some (some (TaskStatus.failed,
            some ("No handler registered for skill: " ++ "s"))) :=
  ⟨rfl, rfl, rfl⟩

/-- C3 amended: a skill id that is not declared at all is rejected at
submission time with the store unchanged; but a declared skill id with no
registered handler is not caught at submission — the task is created in
`SUBMITTED`, the engine moves it to `WORKING`, and the configuration error
surfaces only then, as a `FAILED` task whose error is the no-handler
message.  The handler resolution happens after the `WORKING` transition,
not before any state transition. -/
theorem unresolved_handler_amended (st : ServerState)
    (sid tid tNow tWork tDone : String)
    (behavior : Except String HandlerResult) :
    (sid ∉ st.skills →
        createTask st sid tid tNow = (st, .error ("Unknown skill: " ++ sid)))
    ∧ (sid ∈ st.skills → sid ∉ st.handlers →
        (createTask st sid tid tNow).2 = .ok (newTask tid tNow)
        ∧ (∃ st1, execStart (createTask st sid tid tNow).1 tid tWork = some st1
            ∧ (lookupTask st1.tasks tid).map TaskResponse.status
                = some TaskStatus.working)
        ∧ ∃ st2, executeTask (createTask st sid tid tNow).1 tid sid behavior
              tWork tDone = some st2
            ∧ ∃ t2, lookupTask st2.tasks tid = some t2
              ∧ t2.status = TaskStatus.failed
              ∧ t2.error = some ("No handler registered for skill: " ++ sid)) := by
  constructor
  · intro h
    simp [createTask, h]
  · intro hs hh
    have hcreated : (createTask st sid tid tNow).1
        = { st with tasks := updateTask st.tasks tid (newTask tid tNow) } := by
      simp [createTask, hs]
    have hlook : lookupTask (createTask st sid tid tNow).1.tasks tid
        = some (newTask tid tNow) := by
      rw [hcreated]
      exact lookupTask_updateTask_self _ _ _
    refine ⟨by simp [createTask, hs], ?_, ?_⟩
    · refine ⟨{ (createTask st sid tid tNow).1 with tasks := updateTask (createTask st sid tid tNow).1.tasks tid ({ newTask tid tNow with status := .working, updated_at := tWork }) }, ?_, ?_⟩
      · simp [execStart, hlook, newTask]
      · simp [lookupTask_updateTask_self]
    · refine ⟨_, executeTask_found _ tid sid tWork tDone (newTask tid tNow) _ hlook, ?_⟩
      refine ⟨_, lookupTask_updateTask_self _ _ _, ?_⟩
      rw [hcreated]
      simp [runTask, finishTask, hh]

theorem unresolved_handler_amended_witness :
    ("s" ∈ nohandlerState0.skills)
    ∧ (createTask nohandlerState0 "s" "t" "T0").2 = .ok (newTask "t" "T0")
    ∧ ∃ st2, executeTask (createTask nohandlerState0 "s" "t" "T0").1 "t" "s"
          (.ok (.str "hi")) "T1" "T2" = some st2
        ∧ ∃ t2, lookupTask st2.tasks "t" = some t2
          ∧ t2.status = TaskStatus.failed
          ∧ t2.error = some ("No handler registered for skill: " ++ "s") := by
  have h := (unresolved_handler_amended nohandlerState0 "s" "t" "T0" "T1" "T2"
    (.ok (.str "hi"))).2 (by decide) (by decide)
  exact ⟨by decide, h.1, h.2.2⟩

/-- A client environment in which every submission POST succeeds and every
poll request raises (so every `_poll_task` run exhausts its budget). -/
def stuckEnv : Nat → AttemptEnv := fun _ =>
  ⟨.ok ({ task_id := "t" }), fun _ => .err⟩

/-- C5 counterexample: with a poll budget of 2 and an environment in which
the submission always succeeds and polling never reaches a terminal state,
the poll loop of each attempt exhausts its budget, the resulting
`TimeoutError` escapes the retried `send_task` body, and the retry wrapper
re-invokes the whole body — the submission POST is sent 3 times, not once,
refuting the claim that exhausting the poll budget does not cause the task
submission to be re-sent. -/
theorem poll_timeout_resubmits_ce :
    sendTaskNoWait stuckEnv 2 = (3, .error "RetryError")
    ∧ pollTask (stuckEnv 0).pollEnv 2 "t" = .error (pollTimeoutMsg "t")
    ∧ (sendTaskNoWait stuckEnv 2).1 ≠ 1 :=
  ⟨rfl, rfl, by decide⟩

/-- C5 amended: `_poll_task` itself carries no retry decorator and runs a
single bounded loop per invocation, but it is invoked inside the body of
the retried `send_task`, so its `TimeoutError` propagates to the retry
wrapper: when every attempt's submission succeeds and its polling never
reaches a terminal state within the budget, the submission POST is sent 3
times before `RetryError` is raised; when the first attempt's submission
succeeds and its polling reaches a terminal record, the POST is sent
exactly once and that record is returned. -/
theorem send_task_retry_amended (env : Nat → AttemptEnv) (maxPoll : Nat) :
    ((∀ i, i < 3 → ∃ d, (env i).submit = .ok d) →
      (∀ i k, i < 3 → k < maxPoll →
        attemptTerminal ((env i).pollEnv k) = false) →
      sendTaskNoWait env maxPoll = (3, .error "RetryError"))
    ∧ (∀ d j r, (env 0).submit = .ok d → j < maxPoll →
        (∀ k, k < j → attemptTerminal ((env 0).pollEnv k) = false) →
        (env 0).pollEnv j = .resp r → attemptTerminal (.resp r) = true →
        sendTaskNoWait env maxPoll = (1, .ok r)) := by
  constructor
  · intro hsub hpoll
    obtain ⟨d0, hd0⟩ := hsub 0 (by omega)
    obtain ⟨d1, hd1⟩ := hsub 1 (by omega)
    obtain ⟨d2, hd2⟩ := hsub 2 (by omega)
    have hb0 : sendTaskAttempt maxPoll (env 0) = .error (pollTimeoutMsg d0.task_id) := by
      have htm := pollLoop_timeout (env 0).pollEnv d0.task_id maxPoll 0
        (by simpa using fun k hk => hpoll 0 k (by omega) hk)
      simp [sendTaskAttempt, hd0, pollTask, htm]
    have hb1 : sendTaskAttempt maxPoll (env 1) = .error (pollTimeoutMsg d1.task_id) := by
      have htm := pollLoop_timeout (env 1).pollEnv d1.task_id maxPoll 0
        (by simpa using fun k hk => hpoll 1 k (by omega) hk)
      simp [sendTaskAttempt, hd1, pollTask, htm]
    have hb2 : sendTaskAttempt maxPoll (env 2) = .error (pollTimeoutMsg d2.task_id) := by
      have htm := pollLoop_timeout (env 2).pollEnv d2.task_id maxPoll 0
        (by simpa using fun k hk => hpoll 2 k (by omega) hk)
      simp [sendTaskAttempt, hd2, pollTask, htm]
    simp [sendTaskNoWait, retryRun, hb0, hb1, hb2]
  · intro d j r hd hj hbefore henv hterm
    have hok : sendTaskAttempt maxPoll (env 0) = .ok r := by
      have := pollLoop_first_terminal (env 0).pollEnv d.task_id maxPoll 0 j r hj
        (by simpa using hbefore) (by simpa using henv) hterm
      simp [sendTaskAttempt, hd, pollTask, this]
    simp [sendTaskNoWait, retryRun, hok]

/-- An environment whose first attempt submits successfully and reaches a
completed record on its second poll. -/
def quickEnv : Nat → AttemptEnv := fun _ =>
  ⟨.ok ({ task_id := "t" }),
   fun k => if k = 0 then .err
            else .resp ({ task_id := "t", status := some "completed" })⟩

theorem send_task_retry_amended_witness :
    sendTaskNoWait quickEnv 5
      = (1, .ok ({ task_id := "t", status := some "completed" })) :=
  (send_task_retry_amended quickEnv 5).2 ({ task_id := "t" }) 1
    ({ task_id := "t", status := some "completed" })
    rfl (by omega) (by decide) rfl (by decide)

/-- A completed discovery record carrying one artifact, as `_call_agent`
would receive it from the data-discovery agent. -/
def discoveryRecordW : ClientTask :=
  { task_id := "d1", status := some "completed",
    artifacts := [{ content := some (.vStr "sales, stores") }],
    errorField := some none }

/-- C6 counterexample: plan requires `discover-tables` and `text-to-sql`,
`data_discovery` is registered but `sql_generation` is not.  The run's
result contains the discovery step's data and synthesis runs — but the
second step is skipped entirely by the guard: the result carries no
sql-generation entry and no error annotation of any kind (`runError` is
`none` and the only agent-result key is `data_discovery`), refuting the
claim that the unregistered-agent step is captured as a routing error
attached to that step's result. -/
theorem unregistered_agent_no_annotation_ce :
    handleAnswerQuestion ["data_discovery"] ["discover-tables", "text-to-sql"]
        (.ok discoveryRecordW) (.ok discoveryRecordW) none
      = { steps := ["planning", "data_discovery"],
          agentResults := [("data_discovery", .ok (.vStr "sales, stores"))],
          answerSet := true, runError := none } :=
  rfl

/-- C6 amended: a step whose agent is unregistered is skipped entirely by
the guard `skill in required_skills and agent_name in self.agents` — no
call is made and no error annotation is attached to the result; the earlier
steps' results are kept and synthesis still runs on the partial data.  A
direct `_call_agent` invocation with an unregistered name instead raises
`ValueError` before its `try` block, so that exception propagates to the
caller rather than being captured in the step's result. -/
theorem unregistered_agent_amended (agents requiredSkills : List String)
    (discoveryOutcome sqlOutcome : Except String ClientTask) (name : String)
    (hsql : "sql_generation" ∉ agents)
    (hreqd : "discover-tables" ∈ requiredSkills)
    (hreqs : "text-to-sql" ∈ requiredSkills)
    (hdisc : "data_discovery" ∈ agents) :
    handleAnswerQuestion agents requiredSkills discoveryOutcome sqlOutcome none
      = { steps := ["planning", "data_discovery"],
          agentResults :=
            [("data_discovery", callAgent agents "data_discovery" discoveryOutcome)],
          answerSet := true, runError := none }
    ∧ (name ∉ agents →
        callAgent agents name sqlOutcome
          = .raised ("Unknown agent: " ++ name)) := by
  constructor
  · simp [handleAnswerQuestion, hsql, hreqd, hreqs, hdisc]
  · intro hname
    simp [callAgent, hname]

theorem unregistered_agent_amended_witness :
    handleAnswerQuestion ["data_discovery"] ["discover-tables", "text-to-sql"]
        (.ok discoveryRecordW) (.error "net down") none
      = { steps := ["planning", "data_discovery"],
          agentResults := [("data_discovery",
            callAgent ["data_discovery"] "data_discovery" (.ok discoveryRecordW))],
          answerSet := true, runError := none }
    ∧ ("sql_generation" ∉ (["data_discovery"] : List String) →
        callAgent ["data_discovery"] "sql_generation" (.error "net down")
          = .raised ("Unknown agent: " ++ "sql_generation")) :=
  ⟨(unregistered_agent_amended ["data_discovery"]
      ["discover-tables", "text-to-sql"] (.ok discoveryRecordW)
      (.error "net down") "sql_generation" (by decide) (by decide) (by decide)
      (by decide)).1,
   fun _ => (unregistered_agent_amended ["data_discovery"]
      ["discover-tables", "text-to-sql"] (.ok discoveryRecordW)
      (.error "net down") "sql_generation" (by decide) (by decide) (by decide)
      (by decide)).2 (by decide)⟩

end A2A
